import Mathlib

/-!
# The Redis-backed session interceptor of da4qi4

A shallow embedding of `src/intercepters/session_redis.cpp`: the identifier
generator `make_session_id`, `SessionOnRedis::create_new_session`, the two
phases `SessionOnRedis::on_request` / `SessionOnRedis::on_response` and the
controller `SessionOnRedis::operator()`.

The C++ code works by side effects on a shared request context.  Here the
context is an explicit state, every effect the interceptor performs on it is
appended to `Context.log`, and a phase is a function `Context → Context`.
The asynchronous Redis call is a command plus a completion handler; the client
of a context says which reply (if any) is delivered to the handler.
-/

namespace da4qi4

/-! ## Collaborators that are not part of the translated file -/

/-- Modelled from the spec: the document type `Json` (declared in
`def/json_def.hpp`, which is not under `src/`, as the JSON library's value
type).  A document is null, a scalar, an array or a map-like object.  The
text of a floating point number is carried uninterpreted. -/
inductive Json where
  | null
  | bool (b : Bool)
  | number_integer (i : Int)
  | number_unsigned (n : Nat)
  | number_float (text : String)
  | string (s : String)
  | array (elems : List Json)
  | object (members : List (String × Json))

/-- Modelled from the spec: `Json::empty()`, the test for a structurally empty
document: null, an array without elements or an object without members.
Scalars are never empty. -/
def Json.empty : Json → Bool
  | .null => true
  | .array elems => elems.isEmpty
  | .object members => members.isEmpty
  | _ => false

/-- Modelled from the spec: the same-site policy of a cookie
(`Cookie::SameSite`, declared in `cookie.hpp`, not under `src/`). -/
inductive SameSite where
  | none
  | lax
  | strict

/-- Modelled from the spec: the cookie attributes (`Cookie`, declared in
`cookie.hpp`, not under `src/`): name, value, domain, path, max-age in
seconds, http-only flag, secure flag and same-site policy. -/
structure Cookie where
  name : String
  value : String
  domain : String
  path : String
  max_age : Int
  http_only : Bool
  secure : Bool
  samesite : SameSite

/-- Modelled from the spec: the default-constructed `Cookie` (`Cookie cookie;`
in `on_response`), with every attribute at its zero value. -/
def Cookie.default : Cookie :=
  { name := "", value := "", domain := "", path := "", max_age := 0,
    http_only := false, secure := false, samesite := SameSite.none }

/-- Modelled from the spec: the four-argument constructor
`Cookie(name, value, domain, path)`; the remaining attributes keep their
defaults until a setter is called. -/
def Cookie.new (name value domain path : String) : Cookie :=
  { Cookie.default with name := name, value := value, domain := domain, path := path }

/-- Modelled from the spec: `Cookie::SetMaxAge`. -/
def Cookie.SetMaxAge (c : Cookie) (seconds : Int) : Cookie := { c with max_age := seconds }

/-- Modelled from the spec: `Cookie::SetHttpOnly`. -/
def Cookie.SetHttpOnly (c : Cookie) (flag : Bool) : Cookie := { c with http_only := flag }

/-- Modelled from the spec: `Cookie::SetSecure`. -/
def Cookie.SetSecure (c : Cookie) (flag : Bool) : Cookie := { c with secure := flag }

/-- Modelled from the spec: `Cookie::SetSameSite`. -/
def Cookie.SetSameSite (c : Cookie) (policy : SameSite) : Cookie := { c with samesite := policy }

/-- Modelled from the spec: `Cookie::GetMaxAge`. -/
def Cookie.GetMaxAge (c : Cookie) : Int := c.max_age

/-- Modelled from the spec: `Cookie::GetValue`. -/
def Cookie.GetValue (c : Cookie) : String := c.value

/-- Modelled from the spec: the configuration of the interceptor
(`SessionOptions`, declared in `session.hpp`, not under `src/`): cookie name,
identifier prefix (`prefix` in the source, a reserved word here), domain,
path-prefix filter, max-age, http-only, secure and same-site policy. -/
structure SessionOptions where
  name : String
  prefix_ : String
  domain : String
  path : String
  max_age : Int
  http_only : Bool
  secure : Bool
  samesite : SameSite

/-- Modelled from the spec: the reply of the key-value backend (`RedisValue`),
reduced to the two observations the interceptor makes of it: whether it is an
error, and its text (empty when no record exists). -/
structure RedisValue where
  IsError : Bool
  ToString : String

/-- Modelled from the spec: the backend client of one request.  Given a command
and its arguments it tells which reply the backend delivers to the completion
handler; `none` means the handler is never invoked. -/
abbrev RedisClient := String → List String → Option RedisValue

/-- Every effect the interceptor can have on the context, the response, the
backend or the error stream, in the order it happens. -/
inductive Event where
  | SaveData (name : String) (data : Json)
  | LoadData (name : String)
  | SetCookie (cookie : Cookie)
  | Command (cmd : String) (args : List String)
  | cerr (text : String)
  | RenderInternalServerError
  | Stop
  | Pass

/-- Modelled from the spec: the request context (`Context`, declared in
`context.hpp`, not under `src/`) as the interceptor sees it: the request's
cookies and path, the backend client (absent when no backend is attached),
the named data attached to the request, and the log of effects.  The state of
the process-wide UUID generator of `make_session_id` is carried along:
`uuid_source n` is the text of the `n`-th UUID it yields and `uuid_drawn`
counts the UUIDs drawn so far. -/
structure Context where
  req_cookies : String → String
  url_path : String
  redis : Option RedisClient
  data : String → Json
  log : List Event
  uuid_source : Nat → String
  uuid_drawn : Nat

/-- Append one effect to the log. -/
def Context.emit (ctx : Context) (e : Event) : Context :=
  { ctx with log := ctx.log ++ [e] }

/-- Modelled from the spec: `Req().GetCookie(name)`, the value of the request
cookie of that name, the empty string when the request carries none. -/
def Context.GetCookie (ctx : Context) (name : String) : String := ctx.req_cookies name

/-- Modelled from the spec: `Req().GetUrl().path`. -/
def Context.GetUrlPath (ctx : Context) : String := ctx.url_path

/-- Modelled from the spec: `HasRedis()` (`HasBackend() -> bool`). -/
def Context.HasRedis (ctx : Context) : Bool := ctx.redis.isSome

/-- Modelled from the spec: `Redis()` (`Backend() -> adapter-or-absent`). -/
def Context.Redis (ctx : Context) : Option RedisClient := ctx.redis

/-- Modelled from the spec: `SaveData(key, document)` attaches the document
under the key, replacing what was there. -/
def Context.SaveData (ctx : Context) (name : String) (data : Json) : Context :=
  { ctx with
    data := fun k => if k = name then data else ctx.data k
    log := ctx.log ++ [Event.SaveData name data] }

/-- Modelled from the spec: `LoadData(key) -> document`, the document attached
under the key, the empty (null) document when nothing is attached. -/
def Context.LoadData (ctx : Context) (name : String) : Json × Context :=
  (ctx.data name, ctx.emit (Event.LoadData name))

/-- Modelled from the spec: `Res().SetCookie(cookie)`, the response accessor
for setting a cookie. -/
def Context.SetCookie (ctx : Context) (cookie : Cookie) : Context :=
  ctx.emit (Event.SetCookie cookie)

/-- Modelled from the spec: the pipeline control primitive `Pass()`
(`Continue()`). -/
def Context.Pass (ctx : Context) : Context := ctx.emit Event.Pass

/-- Modelled from the spec: the pipeline control primitive `Stop()`. -/
def Context.Stop (ctx : Context) : Context := ctx.emit Event.Stop

/-- Modelled from the spec: `RenderInternalServerError()`. -/
def Context.RenderInternalServerError (ctx : Context) : Context :=
  ctx.emit Event.RenderInternalServerError

/-- The statement `std::cerr << text << std::endl`. -/
def Context.cerr (ctx : Context) (text : String) : Context := ctx.emit (Event.cerr text)

/-- Modelled from the spec: `redis->Command(cmd, args, handler)`.  The command
is issued, and when the backend completes it the handler runs on the reply. -/
def RedisClient.Command (redis : RedisClient) (cmd : String) (args : List String)
    (handler : RedisValue → Context → Context) (ctx : Context) : Context :=
  let issued := ctx.emit (Event.Command cmd args)
  match redis cmd args with
  | some value => handler value issued
  | none => issued

/-- The functions the translated file calls and that are declared elsewhere:
the JSON text codec (`Json::parse`, which fails with a message, and
`Json::dump` with an indent), the envelope codec of `session.hpp`
(`ToJson(cookie, data)` and `FromJson(node, cookie, data)`, the latter
yielding the decoded pair exactly when the source function returns true) and
the path-prefix test `Utilities::iStartsWith`.  Of the JSON parser one fact is
recorded: the empty text is not a document (`parse_empty`). -/
structure Deps where
  parse : String → Except String Json
  dump : Json → Nat → String
  ToJson : Cookie → Json → Json
  FromJson : Json → Option (Cookie × Json)
  iStartsWith : String → String → Bool
  parse_empty : ∃ what, parse "" = Except.error what

/-- The function `std::to_string` on an `int`: the decimal rendering. -/
def to_string (n : Int) : String := toString n

/-! ## The translated file -/

/-- The constant `SessionOnRedis::data_name`. -/
def SessionOnRedis.data_name : String := "session-redis"

/-- The interceptor object: it holds the options given at construction. -/
structure SessionOnRedis where
  _options : SessionOptions

/-- The phase the controller is invoked for (`Intercepter::On`). -/
inductive On where
  | Request
  | Response

/-- The function `make_session_id`: one UUID is drawn from the static
generator and its text is written after the prefix. -/
def make_session_id (pfx : String) (ctx : Context) : String × Context :=
  let uid := ctx.uuid_source ctx.uuid_drawn
  (pfx ++ uid, { ctx with uuid_drawn := ctx.uuid_drawn + 1 })

/-- The method `SessionOnRedis::create_new_session`. -/
def SessionOnRedis.create_new_session (deps : Deps) (self : SessionOnRedis)
    (ctx : Context) : Json × Context :=
  let (session_id, ctx) := make_session_id self._options.prefix_ ctx
  let cookie := Cookie.new self._options.name session_id self._options.domain self._options.path
  let cookie := cookie.SetMaxAge self._options.max_age
  let cookie := cookie.SetHttpOnly self._options.http_only
  let cookie := cookie.SetSecure self._options.secure
  let cookie := cookie.SetSameSite self._options.samesite
  (deps.ToJson cookie Json.null, ctx)

/-- The completion handler of the `GET` command in `on_request`.  The `try`
block parses the value only when it is not empty; `Json::parse` is the one
call in it that is taken to throw, and the two `catch` clauses have the same
body, so its failure leads to the single error branch below. -/
def SessionOnRedis.on_request_reply (deps : Deps) (self : SessionOnRedis)
    (value : RedisValue) (ctx : Context) : Context :=
  if value.IsError then
    ((ctx.cerr value.ToString).RenderInternalServerError).Stop
  else
    let parsed : Except String Json :=
      if value.ToString ≠ "" then deps.parse value.ToString else Except.ok Json.null
    match parsed with
    | Except.ok data =>
      let (data, ctx) :=
        if data.empty then self.create_new_session deps ctx else (data, ctx)
      (ctx.SaveData SessionOnRedis.data_name data).Pass
    | Except.error what =>
      ((ctx.cerr what).RenderInternalServerError).Stop

/-- The method `SessionOnRedis::on_request`. -/
def SessionOnRedis.on_request (deps : Deps) (self : SessionOnRedis) (ctx : Context) : Context :=
  let session_id := ctx.GetCookie self._options.name
  if session_id = "" then
    let (data, ctx) := self.create_new_session deps ctx
    (ctx.SaveData SessionOnRedis.data_name data).Pass
  else
    match ctx.Redis with
    | some redis => redis.Command "GET" [session_id] (self.on_request_reply deps) ctx
    | none => ctx

/-- The completion handler of the `SETEX` command in `on_response`: the error
branch has no `return`, so `Pass` follows in either case. -/
def SessionOnRedis.on_response_reply (value : RedisValue) (ctx : Context) : Context :=
  let ctx :=
    if value.IsError then
      ((ctx.cerr value.ToString).RenderInternalServerError).Stop
    else ctx
  ctx.Pass

/-- The method `SessionOnRedis::on_response`. -/
def SessionOnRedis.on_response (deps : Deps) (_self : SessionOnRedis) (ctx : Context) : Context :=
  let (node, ctx) := ctx.LoadData SessionOnRedis.data_name
  if node.empty then ctx.Pass
  else
    match deps.FromJson node with
    | none => ctx.Pass
    | some (cookie, _data) =>
      let ctx := ctx.SetCookie cookie
      let session_timeout_s := to_string cookie.GetMaxAge
      let session_id := cookie.GetValue
      let indent := 4
      let session_value := deps.dump node indent
      match ctx.Redis with
      | some redis =>
        redis.Command "SETEX" [session_id, session_timeout_s, session_value]
          SessionOnRedis.on_response_reply ctx
      | none => ctx

/-- The controller `SessionOnRedis::operator()(ctx, on)`; the phase argument
`on` of the source is called `phase`. -/
def SessionOnRedis.operator_call (deps : Deps) (self : SessionOnRedis) (ctx : Context)
    (phase : On) : Context :=
  if self._options.name = "" then ctx.Pass
  else if !deps.iStartsWith ctx.GetUrlPath self._options.path then ctx.Pass
  else if !ctx.HasRedis then ctx.Pass
  else
    match phase with
    | On.Request => self.on_request deps ctx
    | On.Response => self.on_response deps ctx

/-! ## Vocabulary of the properties -/

/-- The cookie of a new session as the specification describes it: name,
domain, path, max-age, http-only, secure and same-site are those of the
configuration, and the value is the given session identifier. -/
def configured_cookie (options : SessionOptions) (session_id : String) : Cookie :=
  { name := options.name, value := session_id, domain := options.domain,
    path := options.path, max_age := options.max_age, http_only := options.http_only,
    secure := options.secure, samesite := options.samesite }

/-! ## Reading the log -/

/-- Whether an effect is a backend command. -/
def Event.isCommand : Event → Bool
  | Event.Command _ _ => true
  | _ => false

/-- Whether an effect sets a response cookie. -/
def Event.isSetCookie : Event → Bool
  | Event.SetCookie _ => true
  | _ => false

/-! ## A concrete instance

A small, fully evaluable instance of the collaborators and of the context, at
which the theorems below are instantiated. -/

namespace Example

/-- The text of a same-site policy in the example envelope codec. -/
def samesite_text : SameSite → String
  | SameSite.none => "none"
  | SameSite.lax => "lax"
  | SameSite.strict => "strict"

/-- The same-site policy of a text in the example envelope codec. -/
def samesite_of_text (s : String) : Option SameSite :=
  if s = "none" then some SameSite.none
  else if s = "lax" then some SameSite.lax
  else if s = "strict" then some SameSite.strict
  else none

/-- Modelled from the spec: the envelope codec `ToJson(cookie, data)` of
`session.hpp` (not under `src/`): a document with two top-level members, one
holding the cookie attributes, one holding the payload.  The member names are
those of this instance. -/
def ToJson (c : Cookie) (data : Json) : Json :=
  Json.object
    [("cookie", Json.object
        [("name", Json.string c.name), ("value", Json.string c.value),
         ("domain", Json.string c.domain), ("path", Json.string c.path),
         ("max_age", Json.number_integer c.max_age), ("http_only", Json.bool c.http_only),
         ("secure", Json.bool c.secure), ("samesite", Json.string (samesite_text c.samesite))]),
     ("data", data)]

/-- Modelled from the spec: the envelope codec `FromJson(node, cookie, data)` of
`session.hpp` (not under `src/`): the decoded pair when both members are
present and well-formed, `none` (the source's `false`) otherwise. -/
def FromJson : Json → Option (Cookie × Json)
  | Json.object
      [(k1, Json.object
          [(a1, Json.string name), (a2, Json.string value), (a3, Json.string domain),
           (a4, Json.string path), (a5, Json.number_integer max_age),
           (a6, Json.bool http_only), (a7, Json.bool secure), (a8, Json.string samesite)]),
       (k2, data)] =>
    if [k1, a1, a2, a3, a4, a5, a6, a7, a8, k2]
        = ["cookie", "name", "value", "domain", "path", "max_age", "http_only", "secure",
           "samesite", "data"] then
      match samesite_of_text samesite with
      | some policy =>
        some ({ name := name, value := value, domain := domain, path := path,
                max_age := max_age, http_only := http_only, secure := secure,
                samesite := policy }, data)
      | none => none
    else none
  | _ => none

/-- The cookie of a session that an earlier response persisted with a max-age
of 60 seconds. -/
def stored_cookie : Cookie :=
  { name := "sid", value := "sess-42", domain := "example.org", path := "/app",
    max_age := 60, http_only := true, secure := false, samesite := SameSite.lax }

/-- The envelope of that session: its cookie and an application payload. -/
def stored : Json := ToJson stored_cookie (Json.object [("user", Json.string "alice")])

/-- A run of blanks. -/
def pad (n : Nat) : String := String.mk (List.replicate n (Char.ofNat 32))

/-- A text between double quotes (no escaping is done). -/
def quote (s : String) : String := String.mk ([Char.ofNat 34] ++ s.data ++ [Char.ofNat 34])

/-- The line break. -/
def nl : String := String.mk [Char.ofNat 10]

/-- The opening brace of an object. -/
def lbrace : String := String.mk [Char.ofNat 123]

/-- The closing brace of an object. -/
def rbrace : String := String.mk [Char.ofNat 125]

mutual
/-- A pretty-printer standing in for `Json::dump(indent)`: `cur` is the current
indentation. -/
def dump_at (indent cur : Nat) : Json → String
  | Json.null => "null"
  | Json.bool b => if b then "true" else "false"
  | Json.number_integer i => toString i
  | Json.number_unsigned n => toString n
  | Json.number_float text => text
  | Json.string s => quote s
  | Json.array [] => "[]"
  | Json.array (x :: xs) =>
    "[" ++ nl ++ pad (cur + indent) ++ dump_at indent (cur + indent) x
      ++ dump_elems indent (cur + indent) xs ++ nl ++ pad cur ++ "]"
  | Json.object [] => lbrace ++ rbrace
  | Json.object ((k, v) :: ms) =>
    lbrace ++ nl ++ pad (cur + indent) ++ quote k ++ ": " ++ dump_at indent (cur + indent) v
      ++ dump_members indent (cur + indent) ms ++ nl ++ pad cur ++ rbrace
/-- The remaining elements of an array, each after a comma. -/
def dump_elems (indent cur : Nat) : List Json → String
  | [] => ""
  | x :: xs => "," ++ nl ++ pad cur ++ dump_at indent cur x ++ dump_elems indent cur xs
/-- The remaining members of an object, each after a comma. -/
def dump_members (indent cur : Nat) : List (String × Json) → String
  | [] => ""
  | (k, v) :: ms =>
    "," ++ nl ++ pad cur ++ quote k ++ ": " ++ dump_at indent cur v
      ++ dump_members indent cur ms
end

/-- The stand-in for `Json::dump(indent)`. -/
def dump (node : Json) (indent : Nat) : String := dump_at indent 0 node

/-- The serialized text of the stored envelope, as the backend holds it. -/
def stored_text : String := dump stored 4

/-- The documents whose text the example backend can return. -/
def known_documents : List Json := [Json.null, Json.array [], stored]

/-- A stand-in for `Json::parse` on the texts of the example: a text parses to
the known document it is the serialization of, and any other text is
malformed. -/
def parse (s : String) : Except String Json :=
  match known_documents.find? (fun d => dump d 4 = s) with
  | some d => Except.ok d
  | none => Except.error "parse error"

/-- A case-insensitive prefix test standing in for `Utilities::iStartsWith`. -/
def iStartsWith (s pfx : String) : Bool :=
  (pfx.data.map Char.toLower).isPrefixOf (s.data.map Char.toLower)

/-- The collaborators of the example. -/
def deps : Deps :=
  { parse := parse, dump := dump, ToJson := ToJson, FromJson := FromJson,
    iStartsWith := iStartsWith, parse_empty := ⟨"parse error", rfl⟩ }

/-- An interceptor configured with a max-age of 3600 seconds. -/
def interceptor : SessionOnRedis :=
  { _options :=
      { name := "sid", prefix_ := "sess-", domain := "example.org", path := "/app",
        max_age := 3600, http_only := true, secure := false, samesite := SameSite.lax } }

/-- A backend that holds the stored envelope under `sess-42`, no record under
any other key, and accepts every write. -/
def healthy_redis : RedisClient := fun cmd args =>
  if cmd = "GET" ∧ args = ["sess-42"] then some { IsError := false, ToString := stored_text }
  else if cmd = "GET" then some { IsError := false, ToString := "" }
  else some { IsError := false, ToString := "OK" }

/-- A backend that answers every command with an error. -/
def failing_redis : RedisClient := fun _ _ =>
  some { IsError := true, ToString := "ERR connection lost" }

/-- A backend that returns a malformed record for every key. -/
def corrupt_redis : RedisClient := fun _ _ =>
  some { IsError := false, ToString := "not a document" }

/-- A first request to `/app/home`: no cookie, nothing attached, empty log. -/
def fresh_ctx : Context :=
  { req_cookies := fun _ => "", url_path := "/app/home", redis := some healthy_redis,
    data := fun _ => Json.null, log := [],
    uuid_source := fun n => "uuid-" ++ toString n, uuid_drawn := 0 }

/-- A later request that presents the cookie `sid=sess-42`. -/
def returning_ctx : Context :=
  { fresh_ctx with req_cookies := fun name => if name = "sid" then "sess-42" else "" }

/-- A request that presents a cookie the backend has no record of. -/
def unknown_ctx : Context :=
  { fresh_ctx with req_cookies := fun name => if name = "sid" then "sess-7" else "" }

/-- The returning request when the backend fails. -/
def failing_ctx : Context := { returning_ctx with redis := some failing_redis }

/-- The returning request when the backend record is malformed. -/
def corrupt_ctx : Context := { returning_ctx with redis := some corrupt_redis }

/-- A response-phase context with the stored envelope attached. -/
def attached_ctx : Context :=
  { fresh_ctx with data := fun k => if k = SessionOnRedis.data_name then stored else Json.null }

/-- A response-phase context with the stored envelope attached whose backend
fails the write. -/
def attached_failing_ctx : Context := { attached_ctx with redis := some failing_redis }

/-- A response-phase context whose attached document is not an envelope. -/
def undecodable_ctx : Context :=
  { fresh_ctx with
    data := fun k => if k = SessionOnRedis.data_name then Json.string "garbage" else Json.null }

/-- A request outside the configured path prefix. -/
def elsewhere_ctx : Context := { returning_ctx with url_path := "/static/logo.png" }

end Example

set_option maxRecDepth 100000

/-! ## Properties of the request phase -/

/-- A new session: the envelope of the configured cookie whose value is the
prefix followed by the UUID drawn now, and the generator advanced by one. -/
theorem create_new_session_eq (deps : Deps) (self : SessionOnRedis) (ctx : Context) :
    self.create_new_session deps ctx
      = (deps.ToJson (configured_cookie self._options
            (self._options.prefix_ ++ ctx.uuid_source ctx.uuid_drawn)) Json.null,
         { ctx with uuid_drawn := ctx.uuid_drawn + 1 }) := by
  rfl

/-- A text that parses is not empty. -/
theorem parsed_text_ne_empty (deps : Deps) (text : String) (d : Json)
    (hparse : deps.parse text = Except.ok d) : text ≠ "" := by
  intro h
  obtain ⟨what, hwhat⟩ := deps.parse_empty
  rw [h, hwhat] at hparse
  cases hparse

/-- Without a cookie under the configured name, `on_request` creates a new
session, attaches its envelope and signals `Pass`. -/
theorem on_request_new_session (deps : Deps) (self : SessionOnRedis) (ctx : Context)
    (hcookie : ctx.GetCookie self._options.name = "") :
    self.on_request deps ctx
      = { ctx with
          data := fun k =>
            if k = SessionOnRedis.data_name then
              deps.ToJson (configured_cookie self._options
                (self._options.prefix_ ++ ctx.uuid_source ctx.uuid_drawn)) Json.null
            else ctx.data k
          log := ctx.log ++
            [Event.SaveData SessionOnRedis.data_name
               (deps.ToJson (configured_cookie self._options
                 (self._options.prefix_ ++ ctx.uuid_source ctx.uuid_drawn)) Json.null),
             Event.Pass]
          uuid_drawn := ctx.uuid_drawn + 1 } := by
  simp [SessionOnRedis.on_request, hcookie, create_new_session_eq, Context.SaveData,
    Context.Pass, Context.emit]

/-- C1. For every configuration and every request without a cookie under the
configured name, `on_request` attaches under `data_name` the envelope
`ToJson c null`, where `c` carries the configured name, domain, path, max-age,
http-only, secure and same-site and its value is the configured prefix followed
by a UUID drawn from the generator at this call; the effects of the run are
exactly that `SaveData` followed by one `Pass`: no backend command, no halt. -/
theorem on_request_without_cookie (deps : Deps) (self : SessionOnRedis) (ctx : Context)
    (hcookie : ctx.GetCookie self._options.name = "") :
    self.on_request deps ctx
      = { ctx with
          data := fun k =>
            if k = SessionOnRedis.data_name then
              deps.ToJson (configured_cookie self._options
                (self._options.prefix_ ++ ctx.uuid_source ctx.uuid_drawn)) Json.null
            else ctx.data k
          log := ctx.log ++
            [Event.SaveData SessionOnRedis.data_name
               (deps.ToJson (configured_cookie self._options
                 (self._options.prefix_ ++ ctx.uuid_source ctx.uuid_drawn)) Json.null),
             Event.Pass]
          uuid_drawn := ctx.uuid_drawn + 1 } :=
  on_request_new_session deps self ctx hcookie

/-- C1 at the first request of the example. -/
theorem on_request_without_cookie_witness :
    (Example.interceptor.on_request Example.deps Example.fresh_ctx).log
      = [Event.SaveData "session-redis"
           (Example.ToJson
             { name := "sid", value := "sess-uuid-0", domain := "example.org", path := "/app",
               max_age := 3600, http_only := true, secure := false, samesite := SameSite.lax }
             Json.null),
         Event.Pass] := by
  rw [on_request_without_cookie Example.deps Example.interceptor Example.fresh_ctx rfl]
  rfl

/-- With a cookie and a backend, `on_request` issues `GET` with the cookie value
as key and hands the reply, if one arrives, to the completion handler. -/
theorem on_request_with_cookie (deps : Deps) (self : SessionOnRedis) (ctx : Context)
    (redis : RedisClient)
    (hcookie : ctx.GetCookie self._options.name ≠ "")
    (hredis : ctx.Redis = some redis) :
    self.on_request deps ctx
      = match redis "GET" [ctx.GetCookie self._options.name] with
        | some value =>
          self.on_request_reply deps value
            (ctx.emit (Event.Command "GET" [ctx.GetCookie self._options.name]))
        | none => ctx.emit (Event.Command "GET" [ctx.GetCookie self._options.name]) := by
  simp [SessionOnRedis.on_request, hcookie, hredis, RedisClient.Command]

/-- The completion handler of `GET` on an error reply. -/
theorem on_request_reply_error (deps : Deps) (self : SessionOnRedis) (value : RedisValue)
    (ctx : Context) (herr : value.IsError = true) :
    self.on_request_reply deps value ctx
      = { ctx with
          log := ctx.log ++ [Event.cerr value.ToString, Event.RenderInternalServerError,
            Event.Stop] } := by
  simp [SessionOnRedis.on_request_reply, herr, Context.cerr, Context.RenderInternalServerError,
    Context.Stop, Context.emit]

/-- The completion handler of `GET` on a non-empty text that does not parse. -/
theorem on_request_reply_malformed (deps : Deps) (self : SessionOnRedis) (value : RedisValue)
    (ctx : Context) (what : String) (hok : value.IsError = false)
    (htext : value.ToString ≠ "") (hparse : deps.parse value.ToString = Except.error what) :
    self.on_request_reply deps value ctx
      = { ctx with
          log := ctx.log ++ [Event.cerr what, Event.RenderInternalServerError, Event.Stop] } := by
  simp [SessionOnRedis.on_request_reply, hok, htext, hparse, Context.cerr,
    Context.RenderInternalServerError, Context.Stop, Context.emit]

/-- The completion handler of `GET` on a text that parses to a non-empty
document. -/
theorem on_request_reply_loaded (deps : Deps) (self : SessionOnRedis) (value : RedisValue)
    (ctx : Context) (d : Json) (hok : value.IsError = false)
    (htext : value.ToString ≠ "") (hparse : deps.parse value.ToString = Except.ok d)
    (hd : d.empty = false) :
    self.on_request_reply deps value ctx
      = { ctx with
          data := fun k => if k = SessionOnRedis.data_name then d else ctx.data k
          log := ctx.log ++ [Event.SaveData SessionOnRedis.data_name d, Event.Pass] } := by
  simp [SessionOnRedis.on_request_reply, hok, htext, hparse, hd, Context.SaveData,
    Context.Pass, Context.emit]

/-- The completion handler of `GET` on an empty text, or on a text that parses
to a structurally empty document: a new session is created. -/
theorem on_request_reply_absent (deps : Deps) (self : SessionOnRedis) (value : RedisValue)
    (ctx : Context) (hok : value.IsError = false)
    (habsent : value.ToString = "" ∨
      ∃ d, deps.parse value.ToString = Except.ok d ∧ d.empty = true) :
    self.on_request_reply deps value ctx
      = { ctx with
          data := fun k =>
            if k = SessionOnRedis.data_name then
              deps.ToJson (configured_cookie self._options
                (self._options.prefix_ ++ ctx.uuid_source ctx.uuid_drawn)) Json.null
            else ctx.data k
          log := ctx.log ++
            [Event.SaveData SessionOnRedis.data_name
               (deps.ToJson (configured_cookie self._options
                 (self._options.prefix_ ++ ctx.uuid_source ctx.uuid_drawn)) Json.null),
             Event.Pass]
          uuid_drawn := ctx.uuid_drawn + 1 } := by
  by_cases htext : value.ToString = ""
  · simp [SessionOnRedis.on_request_reply, hok, htext, Json.empty, create_new_session_eq,
      Context.SaveData, Context.Pass, Context.emit]
  · rcases habsent with h | ⟨d, hparse, hd⟩
    · exact absurd h htext
    · simp [SessionOnRedis.on_request_reply, hok, htext, hparse, hd, create_new_session_eq,
        Context.SaveData, Context.Pass, Context.emit]

/-- The completion handler of `GET` issues no backend command: whatever the
reply, the effects it adds contain none. -/
theorem on_request_reply_no_command (deps : Deps) (self : SessionOnRedis) (value : RedisValue)
    (ctx : Context) :
    ∃ tail, (self.on_request_reply deps value ctx).log = ctx.log ++ tail ∧
      ∀ e ∈ tail, e.isCommand = false := by
  by_cases herr : value.IsError = true
  · refine ⟨_, by rw [on_request_reply_error deps self value ctx herr], ?_⟩
    simp [Event.isCommand]
  · have hok : value.IsError = false := by simpa using herr
    by_cases htext : value.ToString = ""
    · refine ⟨_, by rw [on_request_reply_absent deps self value ctx hok (Or.inl htext)], ?_⟩
      simp [Event.isCommand]
    · cases hparse : deps.parse value.ToString with
      | error what =>
        refine ⟨_, by rw [on_request_reply_malformed deps self value ctx what hok htext hparse], ?_⟩
        simp [Event.isCommand]
      | ok d =>
        by_cases hd : d.empty = true
        · refine ⟨_, by rw [on_request_reply_absent deps self value ctx hok
            (Or.inr ⟨d, hparse, hd⟩)], ?_⟩
          simp [Event.isCommand]
        · have hd2 : d.empty = false := by simpa using hd
          refine ⟨_, by rw [on_request_reply_loaded deps self value ctx d hok htext hparse hd2], ?_⟩
          simp [Event.isCommand]

/-- C2. For every request that carries a session cookie, when the backend
completes the `GET` with an error, or with a non-empty value that fails to
parse, the run adds to the context exactly: the `GET` command, one line on the
error stream, `RenderInternalServerError`, `Stop`.  So halt is signalled once,
`Pass` never, no session data is attached (the data is unchanged), no response
cookie is set and no further command is issued. -/
theorem on_request_failure_halts (deps : Deps) (self : SessionOnRedis) (ctx : Context)
    (redis : RedisClient) (value : RedisValue)
    (hcookie : ctx.GetCookie self._options.name ≠ "")
    (hredis : ctx.Redis = some redis)
    (hreply : redis "GET" [ctx.GetCookie self._options.name] = some value)
    (hbad : value.IsError = true ∨
      (value.ToString ≠ "" ∧ ∃ what, deps.parse value.ToString = Except.error what)) :
    ∃ text,
      self.on_request deps ctx
        = { ctx with
            log := ctx.log ++
              [Event.Command "GET" [ctx.GetCookie self._options.name], Event.cerr text,
               Event.RenderInternalServerError, Event.Stop] } := by
  rw [on_request_with_cookie deps self ctx redis hcookie hredis, hreply]
  by_cases herr : value.IsError = true
  · refine ⟨value.ToString, ?_⟩
    simp [on_request_reply_error deps self value _ herr, Context.emit]
  · have hok : value.IsError = false := by simpa using herr
    rcases hbad with h | ⟨htext, what, hparse⟩
    · exact absurd h herr
    · refine ⟨what, ?_⟩
      simp [on_request_reply_malformed deps self value _ what hok htext hparse, Context.emit]

/-- C2 at the returning request of the example, once with a backend that
answers with an error and once with a backend that holds a malformed record. -/
theorem on_request_failure_halts_witness :
    (∃ text,
      Example.interceptor.on_request Example.deps Example.failing_ctx
        = { Example.failing_ctx with
            log := [Event.Command "GET" ["sess-42"], Event.cerr text,
                    Event.RenderInternalServerError, Event.Stop] }) ∧
    (∃ text,
      Example.interceptor.on_request Example.deps Example.corrupt_ctx
        = { Example.corrupt_ctx with
            log := [Event.Command "GET" ["sess-42"], Event.cerr text,
                    Event.RenderInternalServerError, Event.Stop] }) :=
  ⟨on_request_failure_halts Example.deps Example.interceptor Example.failing_ctx
      Example.failing_redis { IsError := true, ToString := "ERR connection lost" }
      (by decide) rfl rfl (Or.inl rfl),
   on_request_failure_halts Example.deps Example.interceptor Example.corrupt_ctx
      Example.corrupt_redis { IsError := false, ToString := "not a document" }
      (by decide) rfl rfl (Or.inr ⟨by decide, "parse error", by rfl⟩)⟩

/-- C5. For every request that carries a session cookie, when the backend
completes the `GET` without error with an empty value, or with a value that
parses to a structurally empty document (null, the empty object or the empty
array), the run adds exactly: the `GET` command, the `SaveData` of a new-session
envelope (configured cookie, value the prefix followed by a newly drawn UUID,
null payload) and one `Pass`; halt is never signalled.  Apart from the `GET`
command the outcome is that of the same request without the cookie: the same
effects, the same attached data, the same generator state. -/
theorem on_request_absent_record (deps : Deps) (self : SessionOnRedis) (ctx : Context)
    (redis : RedisClient) (value : RedisValue)
    (hcookie : ctx.GetCookie self._options.name ≠ "")
    (hredis : ctx.Redis = some redis)
    (hreply : redis "GET" [ctx.GetCookie self._options.name] = some value)
    (hok : value.IsError = false)
    (habsent : value.ToString = "" ∨
      ∃ d, deps.parse value.ToString = Except.ok d ∧
        (d = Json.null ∨ d = Json.object [] ∨ d = Json.array [])) :
    self.on_request deps ctx
      = { ctx with
          data := fun k =>
            if k = SessionOnRedis.data_name then
              deps.ToJson (configured_cookie self._options
                (self._options.prefix_ ++ ctx.uuid_source ctx.uuid_drawn)) Json.null
            else ctx.data k
          log := ctx.log ++
            [Event.Command "GET" [ctx.GetCookie self._options.name],
             Event.SaveData SessionOnRedis.data_name
               (deps.ToJson (configured_cookie self._options
                 (self._options.prefix_ ++ ctx.uuid_source ctx.uuid_drawn)) Json.null),
             Event.Pass]
          uuid_drawn := ctx.uuid_drawn + 1 } ∧
    ∃ effects,
      (self.on_request deps { ctx with req_cookies := fun _ => "" }).log = ctx.log ++ effects ∧
      (self.on_request deps ctx).log
        = ctx.log ++ Event.Command "GET" [ctx.GetCookie self._options.name] :: effects ∧
      (self.on_request deps ctx).data
        = (self.on_request deps { ctx with req_cookies := fun _ => "" }).data ∧
      (self.on_request deps ctx).uuid_drawn
        = (self.on_request deps { ctx with req_cookies := fun _ => "" }).uuid_drawn := by
  have habsent2 : value.ToString = "" ∨
      ∃ d, deps.parse value.ToString = Except.ok d ∧ d.empty = true := by
    rcases habsent with h | ⟨d, hparse, hd⟩
    · exact Or.inl h
    · refine Or.inr ⟨d, hparse, ?_⟩
      rcases hd with h | h | h <;> simp [h, Json.empty]
  have hrun := on_request_with_cookie deps self ctx redis hcookie hredis
  rw [hreply] at hrun
  simp only [on_request_reply_absent deps self value _ hok habsent2] at hrun
  have href := on_request_new_session deps self { ctx with req_cookies := fun _ => "" } rfl
  refine ⟨?_,
    [Event.SaveData SessionOnRedis.data_name
       (deps.ToJson (configured_cookie self._options
         (self._options.prefix_ ++ ctx.uuid_source ctx.uuid_drawn)) Json.null),
     Event.Pass], ?_, ?_, ?_, ?_⟩
  · rw [hrun]; simp [Context.emit]
  · rw [href]
  · rw [hrun]; simp [Context.emit]
  · rw [hrun, href]; simp [Context.emit]
  · rw [hrun, href]; simp [Context.emit]

/-- C5 at the request of the example whose cookie the backend has no record
of: the identifier `sess-7` is not reused, a new one is minted. -/
theorem on_request_absent_record_witness :
    (Example.interceptor.on_request Example.deps Example.unknown_ctx).log
      = [Event.Command "GET" ["sess-7"],
         Event.SaveData "session-redis"
           (Example.ToJson
             { name := "sid", value := "sess-uuid-0", domain := "example.org", path := "/app",
               max_age := 3600, http_only := true, secure := false, samesite := SameSite.lax }
             Json.null),
         Event.Pass] := by
  rw [(on_request_absent_record Example.deps Example.interceptor Example.unknown_ctx
    Example.healthy_redis { IsError := false, ToString := "" }
    (by decide) rfl rfl rfl (Or.inl rfl)).1]
  rfl

/-- With a cookie and a backend whose `GET` completes without error with a
value that parses to a non-empty document, `on_request` attaches that document
and signals `Pass`. -/
theorem on_request_existing_session (deps : Deps) (self : SessionOnRedis) (ctx : Context)
    (redis : RedisClient) (value : RedisValue) (d : Json)
    (hcookie : ctx.GetCookie self._options.name ≠ "")
    (hredis : ctx.Redis = some redis)
    (hreply : redis "GET" [ctx.GetCookie self._options.name] = some value)
    (hok : value.IsError = false)
    (hparse : deps.parse value.ToString = Except.ok d) (hd : d.empty = false) :
    self.on_request deps ctx
      = { ctx with
          data := fun k => if k = SessionOnRedis.data_name then d else ctx.data k
          log := ctx.log ++
            [Event.Command "GET" [ctx.GetCookie self._options.name],
             Event.SaveData SessionOnRedis.data_name d, Event.Pass] } := by
  have htext := parsed_text_ne_empty deps value.ToString d hparse
  have hrun := on_request_with_cookie deps self ctx redis hcookie hredis
  rw [hreply] at hrun
  simp only [on_request_reply_loaded deps self value _ d hok htext hparse hd] at hrun
  rw [hrun]; simp [Context.emit]

/-- C9. For every request that carries a session cookie with value `id`, the
run issues exactly one backend command, `GET` with key `id`, as its first
effect.  When the backend completes it without error with a value that parses
to a non-empty document `d`, the run attaches `d` itself under
`data_name` and signals `Pass` once: the effects are exactly the `GET`, the
`SaveData` of `d` and `Pass`, nothing is rendered, halt is not signalled, and
the generator is untouched (no identifier is minted). -/
theorem on_request_loads_session (deps : Deps) (self : SessionOnRedis) (ctx : Context)
    (redis : RedisClient)
    (hcookie : ctx.GetCookie self._options.name ≠ "")
    (hredis : ctx.Redis = some redis) :
    (∃ tail,
      (self.on_request deps ctx).log
        = ctx.log ++ Event.Command "GET" [ctx.GetCookie self._options.name] :: tail ∧
      ∀ e ∈ tail, e.isCommand = false) ∧
    ∀ (value : RedisValue) (d : Json),
      redis "GET" [ctx.GetCookie self._options.name] = some value →
      value.IsError = false →
      deps.parse value.ToString = Except.ok d → d.empty = false →
      self.on_request deps ctx
        = { ctx with
            data := fun k => if k = SessionOnRedis.data_name then d else ctx.data k
            log := ctx.log ++
              [Event.Command "GET" [ctx.GetCookie self._options.name],
               Event.SaveData SessionOnRedis.data_name d, Event.Pass] } := by
  have hrun := on_request_with_cookie deps self ctx redis hcookie hredis
  constructor
  · cases hreply : redis "GET" [ctx.GetCookie self._options.name] with
    | none =>
      rw [hreply] at hrun
      exact ⟨[], by rw [hrun]; simp [Context.emit], by simp⟩
    | some value =>
      rw [hreply] at hrun
      obtain ⟨tail, htail, hno⟩ := on_request_reply_no_command deps self value
        (ctx.emit (Event.Command "GET" [ctx.GetCookie self._options.name]))
      exact ⟨tail, by rw [hrun]; simp only [] at htail ⊢; rw [htail]; simp [Context.emit], hno⟩
  · intro value d hreply hok hparse hd
    exact on_request_existing_session deps self ctx redis value d hcookie hredis hreply hok
      hparse hd

/-- C9 at the returning request of the example: the stored envelope is attached
as it is. -/
theorem on_request_loads_session_witness :
    Example.interceptor.on_request Example.deps Example.returning_ctx
      = { Example.returning_ctx with
          data := fun k => if k = SessionOnRedis.data_name then Example.stored
            else Example.returning_ctx.data k
          log := [Event.Command "GET" ["sess-42"],
                  Event.SaveData SessionOnRedis.data_name Example.stored, Event.Pass] } :=
  (on_request_loads_session Example.deps Example.interceptor Example.returning_ctx
    Example.healthy_redis (by decide) rfl).2
    { IsError := false, ToString := Example.stored_text } Example.stored
    rfl rfl (by rfl) rfl

/-! ## Properties of the response phase -/

/-- The completion handler of `SETEX` on a reply that is not an error. -/
theorem on_response_reply_ok (value : RedisValue) (ctx : Context)
    (hok : value.IsError = false) :
    SessionOnRedis.on_response_reply value ctx
      = { ctx with log := ctx.log ++ [Event.Pass] } := by
  simp [SessionOnRedis.on_response_reply, hok, Context.Pass, Context.emit]

/-- The completion handler of `SETEX` on an error reply: the error is rendered,
`Stop` is signalled, and `Pass` is signalled all the same. -/
theorem on_response_reply_error (value : RedisValue) (ctx : Context)
    (herr : value.IsError = true) :
    SessionOnRedis.on_response_reply value ctx
      = { ctx with
          log := ctx.log ++ [Event.cerr value.ToString, Event.RenderInternalServerError,
            Event.Stop, Event.Pass] } := by
  simp [SessionOnRedis.on_response_reply, herr, Context.cerr,
    Context.RenderInternalServerError, Context.Stop, Context.Pass, Context.emit]

/-- The completion handler of `SETEX` issues no command and sets no cookie. -/
theorem on_response_reply_quiet (value : RedisValue) (ctx : Context) :
    ∃ tail, (SessionOnRedis.on_response_reply value ctx).log = ctx.log ++ tail ∧
      ∀ e ∈ tail, e.isCommand = false ∧ e.isSetCookie = false := by
  by_cases herr : value.IsError = true
  · refine ⟨_, by rw [on_response_reply_error value ctx herr], ?_⟩
    simp [Event.isCommand, Event.isSetCookie]
  · have hok : value.IsError = false := by simpa using herr
    refine ⟨_, by rw [on_response_reply_ok value ctx hok], ?_⟩
    simp [Event.isCommand, Event.isSetCookie]

/-- With a backend and an attached document that is not empty and decodes,
`on_response` sets the decoded cookie, issues `SETEX` with the cookie value,
the decimal max-age and the serialized document, and hands the reply, if one
arrives, to the completion handler. -/
theorem on_response_with_envelope (deps : Deps) (self : SessionOnRedis) (ctx : Context)
    (redis : RedisClient) (cookie : Cookie) (payload : Json)
    (hredis : ctx.Redis = some redis)
    (hnode : (ctx.data SessionOnRedis.data_name).empty = false)
    (hdecode : deps.FromJson (ctx.data SessionOnRedis.data_name) = some (cookie, payload)) :
    self.on_response deps ctx
      = match redis "SETEX" [cookie.value, to_string cookie.max_age,
            deps.dump (ctx.data SessionOnRedis.data_name) 4] with
        | some value =>
          SessionOnRedis.on_response_reply value
            { ctx with
              log := ctx.log ++
                [Event.LoadData SessionOnRedis.data_name, Event.SetCookie cookie,
                 Event.Command "SETEX" [cookie.value, to_string cookie.max_age,
                   deps.dump (ctx.data SessionOnRedis.data_name) 4]] }
        | none =>
          { ctx with
            log := ctx.log ++
              [Event.LoadData SessionOnRedis.data_name, Event.SetCookie cookie,
               Event.Command "SETEX" [cookie.value, to_string cookie.max_age,
                 deps.dump (ctx.data SessionOnRedis.data_name) 4]] } := by
  have hredis2 : ctx.redis = some redis := hredis
  simp [SessionOnRedis.on_response, Context.LoadData, hnode, hdecode, Context.SetCookie,
    Context.Redis, Context.emit, hredis2, RedisClient.Command, Cookie.GetValue,
    Cookie.GetMaxAge]

/-- C8. For every response-phase run in which the document under `data_name` is
empty (nothing attached), or does not decode (`FromJson` fails), the run adds
exactly the `LoadData` and one `Pass`: no response cookie, no backend command,
no rendered error, no halt, and the context is otherwise unchanged. -/
theorem on_response_nothing_to_persist (deps : Deps) (self : SessionOnRedis) (ctx : Context)
    (hnothing : (ctx.data SessionOnRedis.data_name).empty = true ∨
      deps.FromJson (ctx.data SessionOnRedis.data_name) = none) :
    self.on_response deps ctx
      = { ctx with
          log := ctx.log ++ [Event.LoadData SessionOnRedis.data_name, Event.Pass] } := by
  by_cases hnode : (ctx.data SessionOnRedis.data_name).empty = true
  · simp [SessionOnRedis.on_response, Context.LoadData, hnode, Context.Pass, Context.emit]
  · rcases hnothing with h | h
    · exact absurd h hnode
    · simp [SessionOnRedis.on_response, Context.LoadData, hnode, h, Context.Pass, Context.emit]

/-- C8 at two response-phase contexts of the example: one with nothing
attached, one whose attached document is not an envelope. -/
theorem on_response_nothing_to_persist_witness :
    Example.interceptor.on_response Example.deps Example.fresh_ctx
      = { Example.fresh_ctx with log := [Event.LoadData "session-redis", Event.Pass] } ∧
    Example.interceptor.on_response Example.deps Example.undecodable_ctx
      = { Example.undecodable_ctx with log := [Event.LoadData "session-redis", Event.Pass] } :=
  ⟨on_response_nothing_to_persist Example.deps Example.interceptor Example.fresh_ctx
      (Or.inl rfl),
   on_response_nothing_to_persist Example.deps Example.interceptor Example.undecodable_ctx
      (Or.inr rfl)⟩

/-- With a backend and an attached document that is not empty and decodes, the
effects of `on_response` begin with the `LoadData`, the response cookie and the
`SETEX` command, and nothing after them is a command or a cookie. -/
theorem on_response_envelope_effects (deps : Deps) (self : SessionOnRedis) (ctx : Context)
    (redis : RedisClient) (cookie : Cookie) (payload : Json)
    (hredis : ctx.Redis = some redis)
    (hnode : (ctx.data SessionOnRedis.data_name).empty = false)
    (hdecode : deps.FromJson (ctx.data SessionOnRedis.data_name) = some (cookie, payload)) :
    ∃ tail,
      (self.on_response deps ctx).log
        = ctx.log ++
            [Event.LoadData SessionOnRedis.data_name, Event.SetCookie cookie,
             Event.Command "SETEX" [cookie.value, to_string cookie.max_age,
               deps.dump (ctx.data SessionOnRedis.data_name) 4]] ++ tail ∧
      ∀ e ∈ tail, e.isCommand = false ∧ e.isSetCookie = false := by
  have hrun := on_response_with_envelope deps self ctx redis cookie payload hredis hnode hdecode
  cases hreply : redis "SETEX" [cookie.value, to_string cookie.max_age,
      deps.dump (ctx.data SessionOnRedis.data_name) 4] with
  | none =>
    rw [hreply] at hrun
    exact ⟨[], by rw [hrun]; simp, by simp⟩
  | some value =>
    rw [hreply] at hrun
    obtain ⟨tail, htail, hquiet⟩ := on_response_reply_quiet value
      { ctx with
        log := ctx.log ++
          [Event.LoadData SessionOnRedis.data_name, Event.SetCookie cookie,
           Event.Command "SETEX" [cookie.value, to_string cookie.max_age,
             deps.dump (ctx.data SessionOnRedis.data_name) 4]] }
    exact ⟨tail, by rw [hrun]; simp only [] at htail ⊢; rw [htail], hquiet⟩

/-- C7. For every attached document that is not empty and decodes to
`(cookie, payload)`, the response phase sets the response cookie to exactly
`cookie` and issues exactly one backend command, `SETEX` with key
`cookie.value`, ttl the decimal rendering of `cookie.max_age` and value the
serialization (indent 4) of the whole attached document; nothing that follows
is a command or a cookie.  When the command completes without error the run
ends with one `Pass` and nothing else: no halt, no rendered error. -/
theorem on_response_persists (deps : Deps) (self : SessionOnRedis) (ctx : Context)
    (redis : RedisClient) (cookie : Cookie) (payload : Json)
    (hredis : ctx.Redis = some redis)
    (hnode : (ctx.data SessionOnRedis.data_name).empty = false)
    (hdecode : deps.FromJson (ctx.data SessionOnRedis.data_name) = some (cookie, payload)) :
    (∃ tail,
      (self.on_response deps ctx).log
        = ctx.log ++
            [Event.LoadData SessionOnRedis.data_name, Event.SetCookie cookie,
             Event.Command "SETEX" [cookie.value, to_string cookie.max_age,
               deps.dump (ctx.data SessionOnRedis.data_name) 4]] ++ tail ∧
      ∀ e ∈ tail, e.isCommand = false ∧ e.isSetCookie = false) ∧
    ∀ value : RedisValue,
      redis "SETEX" [cookie.value, to_string cookie.max_age,
        deps.dump (ctx.data SessionOnRedis.data_name) 4] = some value →
      value.IsError = false →
      self.on_response deps ctx
        = { ctx with
            log := ctx.log ++
              [Event.LoadData SessionOnRedis.data_name, Event.SetCookie cookie,
               Event.Command "SETEX" [cookie.value, to_string cookie.max_age,
                 deps.dump (ctx.data SessionOnRedis.data_name) 4],
               Event.Pass] } := by
  have hrun := on_response_with_envelope deps self ctx redis cookie payload hredis hnode hdecode
  constructor
  · exact on_response_envelope_effects deps self ctx redis cookie payload hredis hnode hdecode
  · intro value hreply hok
    rw [hreply] at hrun
    simp only [on_response_reply_ok value _ hok] at hrun
    rw [hrun]; simp

/-- C7 at the response-phase context of the example that has the stored
envelope attached. -/
theorem on_response_persists_witness :
    Example.interceptor.on_response Example.deps Example.attached_ctx
      = { Example.attached_ctx with
          log := [Event.LoadData "session-redis", Event.SetCookie Example.stored_cookie,
                  Event.Command "SETEX" ["sess-42", "60", Example.stored_text],
                  Event.Pass] } :=
  (on_response_persists Example.deps Example.interceptor Example.attached_ctx
    Example.healthy_redis Example.stored_cookie (Json.object [("user", Json.string "alice")])
    rfl rfl rfl).2 { IsError := false, ToString := "OK" } rfl rfl

/-- C3. The response phase at a context whose attached envelope decodes and
whose backend completes the `SETEX` with an error: after
`RenderInternalServerError` and `Stop`, the handler signals `Pass` as well, so
the pipeline receives a halt and a continue for the same phase. -/
theorem on_response_write_error_stops_then_passes :
    (Example.interceptor.on_response Example.deps Example.attached_failing_ctx).log
      = [Event.LoadData "session-redis", Event.SetCookie Example.stored_cookie,
         Event.Command "SETEX" ["sess-42", "60", Example.stored_text],
         Event.cerr "ERR connection lost", Event.RenderInternalServerError, Event.Stop,
         Event.Pass] := by
  rfl

/-! ## Request phase followed by response phase -/

/-- C4, as stated, fails.  The interceptor is configured with a max-age of 3600
seconds and the request presents the cookie of a session whose backend record
holds a cookie with a max-age of 60 seconds.  The request phase loads the
record, the response phase persists it with `SETEX sess-42 60 ...`: the ttl is
the max-age of the loaded cookie, not the configured one. -/
theorem setex_ttl_differs_from_configured_max_age :
    Example.interceptor._options.max_age = 3600 ∧
    (Example.interceptor.operator_call Example.deps
        (Example.interceptor.operator_call Example.deps Example.returning_ctx On.Request)
        On.Response).log
      = [Event.Command "GET" ["sess-42"],
         Event.SaveData "session-redis" Example.stored, Event.Pass,
         Event.LoadData "session-redis", Event.SetCookie Example.stored_cookie,
         Event.Command "SETEX" ["sess-42", "60", Example.stored_text], Event.Pass] ∧
    "60" ≠ to_string Example.interceptor._options.max_age := by
  refine ⟨rfl, rfl, ?_⟩
  decide

/-- With a cookie and a backend whose `GET` completes without error with an
empty value, or with a value that parses to a structurally empty document,
`on_request` issues the `GET`, creates a new session, attaches its envelope
and signals `Pass`. -/
theorem on_request_absent_session (deps : Deps) (self : SessionOnRedis) (ctx : Context)
    (redis : RedisClient) (value : RedisValue)
    (hcookie : ctx.GetCookie self._options.name ≠ "")
    (hredis : ctx.Redis = some redis)
    (hreply : redis "GET" [ctx.GetCookie self._options.name] = some value)
    (hok : value.IsError = false)
    (habsent : value.ToString = "" ∨
      ∃ d, deps.parse value.ToString = Except.ok d ∧ d.empty = true) :
    self.on_request deps ctx
      = { ctx with
          data := fun k =>
            if k = SessionOnRedis.data_name then
              deps.ToJson (configured_cookie self._options
                (self._options.prefix_ ++ ctx.uuid_source ctx.uuid_drawn)) Json.null
            else ctx.data k
          log := ctx.log ++
            [Event.Command "GET" [ctx.GetCookie self._options.name],
             Event.SaveData SessionOnRedis.data_name
               (deps.ToJson (configured_cookie self._options
                 (self._options.prefix_ ++ ctx.uuid_source ctx.uuid_drawn)) Json.null),
             Event.Pass]
          uuid_drawn := ctx.uuid_drawn + 1 } := by
  have hrun := on_request_with_cookie deps self ctx redis hcookie hredis
  rw [hreply] at hrun
  simp only [on_request_reply_absent deps self value _ hok habsent] at hrun
  rw [hrun]; simp [Context.emit]

/-- C4, amended.  For every session persisted by the response phase, the ttl of
the `SETEX` command is the decimal rendering of the max-age of the cookie
decoded from the attached envelope, and `SETEX` is the only command the
response phase issues (first part).  Followed through the request phase:
whenever the request phase created the envelope, be it for a request without
cookie (second part) or for a presented cookie whose backend record is empty
or structurally empty (third part), the ttl is the configured max-age,
provided the envelope codec yields a non-empty document and decodes what it
encoded; when the request phase loaded the envelope from a non-empty backend
record (fourth part), the ttl is the max-age of the cookie held in that
record. -/
theorem setex_ttl_is_cookie_max_age (deps : Deps) (self : SessionOnRedis) (ctx : Context)
    (redis : RedisClient) (hredis : ctx.Redis = some redis) :
    (∀ (cookie : Cookie) (payload : Json),
      (ctx.data SessionOnRedis.data_name).empty = false →
      deps.FromJson (ctx.data SessionOnRedis.data_name) = some (cookie, payload) →
      ∃ tail,
        (self.on_response deps ctx).log
          = ctx.log ++
              [Event.LoadData SessionOnRedis.data_name,
               Event.SetCookie cookie,
               Event.Command "SETEX"
                 [cookie.value, to_string cookie.max_age,
                  deps.dump (ctx.data SessionOnRedis.data_name) 4]]
              ++ tail ∧
        ∀ e ∈ tail, e.isCommand = false ∧ e.isSetCookie = false) ∧
    (ctx.GetCookie self._options.name = "" →
      (deps.ToJson (configured_cookie self._options
        (self._options.prefix_ ++ ctx.uuid_source ctx.uuid_drawn)) Json.null).empty = false →
      deps.FromJson (deps.ToJson (configured_cookie self._options
        (self._options.prefix_ ++ ctx.uuid_source ctx.uuid_drawn)) Json.null)
        = some (configured_cookie self._options
            (self._options.prefix_ ++ ctx.uuid_source ctx.uuid_drawn), Json.null) →
      ∃ tail,
        (self.on_response deps (self.on_request deps ctx)).log
          = ctx.log ++
              [Event.SaveData SessionOnRedis.data_name
                 (deps.ToJson (configured_cookie self._options
                   (self._options.prefix_ ++ ctx.uuid_source ctx.uuid_drawn)) Json.null),
               Event.Pass,
               Event.LoadData SessionOnRedis.data_name,
               Event.SetCookie (configured_cookie self._options
                 (self._options.prefix_ ++ ctx.uuid_source ctx.uuid_drawn)),
               Event.Command "SETEX"
                 [self._options.prefix_ ++ ctx.uuid_source ctx.uuid_drawn,
                  to_string self._options.max_age,
                  deps.dump (deps.ToJson (configured_cookie self._options
                    (self._options.prefix_ ++ ctx.uuid_source ctx.uuid_drawn)) Json.null) 4]]
              ++ tail ∧
        ∀ e ∈ tail, e.isCommand = false ∧ e.isSetCookie = false) ∧
    (∀ value : RedisValue,
      ctx.GetCookie self._options.name ≠ "" →
      redis "GET" [ctx.GetCookie self._options.name] = some value →
      value.IsError = false →
      (value.ToString = "" ∨
        ∃ d, deps.parse value.ToString = Except.ok d ∧ d.empty = true) →
      (deps.ToJson (configured_cookie self._options
        (self._options.prefix_ ++ ctx.uuid_source ctx.uuid_drawn)) Json.null).empty = false →
      deps.FromJson (deps.ToJson (configured_cookie self._options
        (self._options.prefix_ ++ ctx.uuid_source ctx.uuid_drawn)) Json.null)
        = some (configured_cookie self._options
            (self._options.prefix_ ++ ctx.uuid_source ctx.uuid_drawn), Json.null) →
      ∃ tail,
        (self.on_response deps (self.on_request deps ctx)).log
          = ctx.log ++
              [Event.Command "GET" [ctx.GetCookie self._options.name],
               Event.SaveData SessionOnRedis.data_name
                 (deps.ToJson (configured_cookie self._options
                   (self._options.prefix_ ++ ctx.uuid_source ctx.uuid_drawn)) Json.null),
               Event.Pass,
               Event.LoadData SessionOnRedis.data_name,
               Event.SetCookie (configured_cookie self._options
                 (self._options.prefix_ ++ ctx.uuid_source ctx.uuid_drawn)),
               Event.Command "SETEX"
                 [self._options.prefix_ ++ ctx.uuid_source ctx.uuid_drawn,
                  to_string self._options.max_age,
                  deps.dump (deps.ToJson (configured_cookie self._options
                    (self._options.prefix_ ++ ctx.uuid_source ctx.uuid_drawn)) Json.null) 4]]
              ++ tail ∧
        ∀ e ∈ tail, e.isCommand = false ∧ e.isSetCookie = false) ∧
    (∀ (value : RedisValue) (d : Json) (cookie : Cookie) (payload : Json),
      ctx.GetCookie self._options.name ≠ "" →
      redis "GET" [ctx.GetCookie self._options.name] = some value →
      value.IsError = false →
      deps.parse value.ToString = Except.ok d → d.empty = false →
      deps.FromJson d = some (cookie, payload) →
      ∃ tail,
        (self.on_response deps (self.on_request deps ctx)).log
          = ctx.log ++
              [Event.Command "GET" [ctx.GetCookie self._options.name],
               Event.SaveData SessionOnRedis.data_name d,
               Event.Pass,
               Event.LoadData SessionOnRedis.data_name,
               Event.SetCookie cookie,
               Event.Command "SETEX" [cookie.value, to_string cookie.max_age, deps.dump d 4]]
              ++ tail ∧
        ∀ e ∈ tail, e.isCommand = false ∧ e.isSetCookie = false) := by
  refine ⟨?_, ?_, ?_, ?_⟩
  · intro cookie payload hnode hdecode
    exact on_response_envelope_effects deps self ctx redis cookie payload hredis hnode hdecode
  · intro hcookie hnonempty hround
    rw [on_request_new_session deps self ctx hcookie]
    obtain ⟨tail, hlog, hquiet⟩ := on_response_envelope_effects deps self
      { ctx with
        data := fun k =>
          if k = SessionOnRedis.data_name then
            deps.ToJson (configured_cookie self._options
              (self._options.prefix_ ++ ctx.uuid_source ctx.uuid_drawn)) Json.null
          else ctx.data k
        log := ctx.log ++
          [Event.SaveData SessionOnRedis.data_name
             (deps.ToJson (configured_cookie self._options
               (self._options.prefix_ ++ ctx.uuid_source ctx.uuid_drawn)) Json.null),
           Event.Pass]
        uuid_drawn := ctx.uuid_drawn + 1 }
      redis
      (configured_cookie self._options
        (self._options.prefix_ ++ ctx.uuid_source ctx.uuid_drawn)) Json.null
      hredis (by simpa using hnonempty) (by simpa using hround)
    refine ⟨tail, ?_, hquiet⟩
    rw [hlog]
    simp [configured_cookie]
  · intro value hcookie hreply hok habsent hnonempty hround
    rw [on_request_absent_session deps self ctx redis value hcookie hredis hreply hok habsent]
    obtain ⟨tail, hlog, hquiet⟩ := on_response_envelope_effects deps self
      { ctx with
        data := fun k =>
          if k = SessionOnRedis.data_name then
            deps.ToJson (configured_cookie self._options
              (self._options.prefix_ ++ ctx.uuid_source ctx.uuid_drawn)) Json.null
          else ctx.data k
        log := ctx.log ++
          [Event.Command "GET" [ctx.GetCookie self._options.name],
           Event.SaveData SessionOnRedis.data_name
             (deps.ToJson (configured_cookie self._options
               (self._options.prefix_ ++ ctx.uuid_source ctx.uuid_drawn)) Json.null),
           Event.Pass]
        uuid_drawn := ctx.uuid_drawn + 1 }
      redis
      (configured_cookie self._options
        (self._options.prefix_ ++ ctx.uuid_source ctx.uuid_drawn)) Json.null
      hredis (by simpa using hnonempty) (by simpa using hround)
    refine ⟨tail, ?_, hquiet⟩
    rw [hlog]
    simp [configured_cookie]
  · intro value d cookie payload hcookie hreply hok hparse hd hdecode
    rw [on_request_existing_session deps self ctx redis value d hcookie hredis hreply hok
      hparse hd]
    obtain ⟨tail, hlog, hquiet⟩ := on_response_envelope_effects deps self
      { ctx with
        data := fun k => if k = SessionOnRedis.data_name then d else ctx.data k
        log := ctx.log ++
          [Event.Command "GET" [ctx.GetCookie self._options.name],
           Event.SaveData SessionOnRedis.data_name d, Event.Pass] }
      redis cookie payload hredis (by simpa using hd) (by simpa using hdecode)
    refine ⟨tail, ?_, hquiet⟩
    rw [hlog]
    simp

/-- C4, amended, at the example, once for each origin of the envelope: an
envelope already attached (max-age 60), the first request without cookie
(persisted with the configured 3600 seconds), the request whose cookie the
backend has no record of (a new session, persisted with the configured 3600
seconds), and the returning request whose record has a max-age of 60. -/
theorem setex_ttl_is_cookie_max_age_witness :
    (∃ tail,
      (Example.interceptor.on_response Example.deps Example.attached_ctx).log
        = [Event.LoadData "session-redis",
           Event.SetCookie Example.stored_cookie,
           Event.Command "SETEX" ["sess-42", "60", Example.stored_text]]
          ++ tail ∧
      ∀ e ∈ tail, e.isCommand = false ∧ e.isSetCookie = false) ∧
    (∃ tail,
      (Example.interceptor.on_response Example.deps
          (Example.interceptor.on_request Example.deps Example.fresh_ctx)).log
        = [Event.SaveData "session-redis"
             (Example.ToJson (configured_cookie Example.interceptor._options "sess-uuid-0")
               Json.null),
           Event.Pass,
           Event.LoadData "session-redis",
           Event.SetCookie (configured_cookie Example.interceptor._options "sess-uuid-0"),
           Event.Command "SETEX"
             ["sess-uuid-0", "3600",
              Example.dump
                (Example.ToJson (configured_cookie Example.interceptor._options "sess-uuid-0")
                  Json.null) 4]]
          ++ tail ∧
      ∀ e ∈ tail, e.isCommand = false ∧ e.isSetCookie = false) ∧
    (∃ tail,
      (Example.interceptor.on_response Example.deps
          (Example.interceptor.on_request Example.deps Example.unknown_ctx)).log
        = [Event.Command "GET" ["sess-7"],
           Event.SaveData "session-redis"
             (Example.ToJson (configured_cookie Example.interceptor._options "sess-uuid-0")
               Json.null),
           Event.Pass,
           Event.LoadData "session-redis",
           Event.SetCookie (configured_cookie Example.interceptor._options "sess-uuid-0"),
           Event.Command "SETEX"
             ["sess-uuid-0", "3600",
              Example.dump
                (Example.ToJson (configured_cookie Example.interceptor._options "sess-uuid-0")
                  Json.null) 4]]
          ++ tail ∧
      ∀ e ∈ tail, e.isCommand = false ∧ e.isSetCookie = false) ∧
    (∃ tail,
      (Example.interceptor.on_response Example.deps
          (Example.interceptor.on_request Example.deps Example.returning_ctx)).log
        = [Event.Command "GET" ["sess-42"],
           Event.SaveData "session-redis" Example.stored,
           Event.Pass,
           Event.LoadData "session-redis",
           Event.SetCookie Example.stored_cookie,
           Event.Command "SETEX" ["sess-42", "60", Example.stored_text]]
          ++ tail ∧
      ∀ e ∈ tail, e.isCommand = false ∧ e.isSetCookie = false) :=
  ⟨(setex_ttl_is_cookie_max_age Example.deps Example.interceptor Example.attached_ctx
      Example.healthy_redis rfl).1
      Example.stored_cookie (Json.object [("user", Json.string "alice")]) rfl rfl,
   (setex_ttl_is_cookie_max_age Example.deps Example.interceptor Example.fresh_ctx
      Example.healthy_redis rfl).2.1 rfl rfl rfl,
   (setex_ttl_is_cookie_max_age Example.deps Example.interceptor Example.unknown_ctx
      Example.healthy_redis rfl).2.2.1
      { IsError := false, ToString := "" } (by decide) rfl rfl (Or.inl rfl) rfl rfl,
   (setex_ttl_is_cookie_max_age Example.deps Example.interceptor Example.returning_ctx
      Example.healthy_redis rfl).2.2.2
      { IsError := false, ToString := Example.stored_text } Example.stored
      Example.stored_cookie (Json.object [("user", Json.string "alice")])
      (by decide) rfl rfl (by rfl) rfl rfl⟩

/-- C10. Session continuity.  Let the document `n` attached to a first context
be non-empty and decode to `(cookie, payload)`; the response phase persists it
with `SETEX cookie.value ttl (dump n 4)`.  Let a later request present the
cookie value `cookie.value`, and let the backend answer its `GET` with exactly
that text, which parses back to `n`.  Then the request phase of the later
request attaches `n` itself and signals `Pass`, minting nothing; what it
attached decodes to the same cookie (identifier and attributes) and the same
payload. -/
theorem session_round_trip (deps : Deps) (self : SessionOnRedis) (first later : Context)
    (redis_first redis_later : RedisClient) (cookie : Cookie) (payload : Json)
    (value : RedisValue)
    (hredis_first : first.Redis = some redis_first)
    (hnode : (first.data SessionOnRedis.data_name).empty = false)
    (hdecode : deps.FromJson (first.data SessionOnRedis.data_name) = some (cookie, payload))
    (hredis_later : later.Redis = some redis_later)
    (hpresented : later.GetCookie self._options.name = cookie.value)
    (hid : cookie.value ≠ "")
    (hreply : redis_later "GET" [cookie.value] = some value)
    (hok : value.IsError = false)
    (hvalue : value.ToString = deps.dump (first.data SessionOnRedis.data_name) 4)
    (hparse : deps.parse (deps.dump (first.data SessionOnRedis.data_name) 4)
      = Except.ok (first.data SessionOnRedis.data_name)) :
    (∃ tail,
      (self.on_response deps first).log
        = first.log ++
            [Event.LoadData SessionOnRedis.data_name, Event.SetCookie cookie,
             Event.Command "SETEX" [cookie.value, to_string cookie.max_age,
               deps.dump (first.data SessionOnRedis.data_name) 4]] ++ tail ∧
      ∀ e ∈ tail, e.isCommand = false ∧ e.isSetCookie = false) ∧
    self.on_request deps later
      = { later with
          data := fun k =>
            if k = SessionOnRedis.data_name then first.data SessionOnRedis.data_name
            else later.data k
          log := later.log ++
            [Event.Command "GET" [cookie.value],
             Event.SaveData SessionOnRedis.data_name (first.data SessionOnRedis.data_name),
             Event.Pass] } ∧
    (self.on_request deps later).data SessionOnRedis.data_name
      = first.data SessionOnRedis.data_name ∧
    deps.FromJson ((self.on_request deps later).data SessionOnRedis.data_name)
      = some (cookie, payload) := by
  have hcookie : later.GetCookie self._options.name ≠ "" := by rw [hpresented]; exact hid
  have hreply2 : redis_later "GET" [later.GetCookie self._options.name] = some value := by
    rw [hpresented]; exact hreply
  have hrun := on_request_existing_session deps self later redis_later value
    (first.data SessionOnRedis.data_name) hcookie hredis_later hreply2 hok
    (by rw [hvalue]; exact hparse) hnode
  rw [hpresented] at hrun
  refine ⟨on_response_envelope_effects deps self first redis_first cookie payload hredis_first
    hnode hdecode, hrun, ?_, ?_⟩
  · rw [hrun]; simp
  · rw [hrun]; simpa using hdecode

/-- C10 at the example: the stored envelope attached to a first context is
persisted, and the returning request gets it back. -/
theorem session_round_trip_witness :
    (Example.interceptor.on_request Example.deps Example.returning_ctx).data
        SessionOnRedis.data_name
      = Example.attached_ctx.data SessionOnRedis.data_name ∧
    Example.FromJson
        ((Example.interceptor.on_request Example.deps Example.returning_ctx).data
          SessionOnRedis.data_name)
      = some (Example.stored_cookie, Json.object [("user", Json.string "alice")]) :=
  (session_round_trip Example.deps Example.interceptor Example.attached_ctx
    Example.returning_ctx Example.healthy_redis Example.healthy_redis Example.stored_cookie
    (Json.object [("user", Json.string "alice")])
    { IsError := false, ToString := Example.stored_text }
    rfl rfl rfl rfl rfl (by decide) rfl rfl rfl (by rfl)).2.2

/-! ## The activation gate -/

/-- C6. For every invocation of the controller, in either phase, if the
configured cookie name is empty, or `iStartsWith` rejects the request path
against the configured path, or the context has no backend, the controller
adds one `Pass` to the log and does nothing else: the context is otherwise
unchanged, so no command, no cookie, no data attached or loaded, no halt. -/
theorem operator_call_pass_through (deps : Deps) (self : SessionOnRedis) (ctx : Context)
    (phase : On)
    (hgate : self._options.name = "" ∨
      deps.iStartsWith ctx.GetUrlPath self._options.path = false ∨
      ctx.HasRedis = false) :
    self.operator_call deps ctx phase = { ctx with log := ctx.log ++ [Event.Pass] } := by
  unfold SessionOnRedis.operator_call
  by_cases hname : self._options.name = ""
  · simp [hname, Context.Pass, Context.emit]
  · by_cases hpath : deps.iStartsWith ctx.GetUrlPath self._options.path = false
    · simp [hname, hpath, Context.Pass, Context.emit]
    · by_cases hbackend : ctx.HasRedis = false
      · simp [hname, hbackend, Context.Pass, Context.emit]
      · rcases hgate with h | h | h
        · exact absurd h hname
        · exact absurd h hpath
        · exact absurd h hbackend

/-- C6 at the example request outside the configured path: both phases only
pass. -/
theorem operator_call_pass_through_witness :
    Example.interceptor.operator_call Example.deps Example.elsewhere_ctx On.Request
      = { Example.elsewhere_ctx with log := [Event.Pass] } ∧
    Example.interceptor.operator_call Example.deps Example.elsewhere_ctx On.Response
      = { Example.elsewhere_ctx with log := [Event.Pass] } :=
  ⟨operator_call_pass_through Example.deps Example.interceptor Example.elsewhere_ctx
      On.Request (Or.inr (Or.inl rfl)),
   operator_call_pass_through Example.deps Example.interceptor Example.elsewhere_ctx
      On.Response (Or.inr (Or.inl rfl))⟩

end da4qi4
